import Mathlib

/-!
Verification of the pipeline-orchestration and sentiment-reconciliation
core of the instagram-campaign-api backend.

The Lean definitions below are a shallow embedding of the Python sources:

* `src/app/scheduler/lock.py`    — the pipeline lock (`LockState` and the
  four functions on it).  The Python module keeps two pieces of module-level
  state, a `threading.Lock` and a `_current_run_id` variable; `LockState`
  carries both.  Run ids (UUIDs in Python) are abstracted as naturals.
* `src/app/core/constants.py`    — the numeric thresholds, as exact
  rationals (the Python floats `0.05`, `-0.05`, `0.7` denote these values
  in every comparison the claims are about).
* `src/app/services/sentiment.py` — VADER labelling, the ambiguity gate,
  and the LLM reconciliation loop.  External effects (the VADER polarity
  scorer, the LLM HTTP call, insert success/failure of the data store) are
  oracle parameters; everything the repository computes is translated.
* `src/app/services/pipeline.py` and `src/app/routers/scraping.py` — the
  orchestrator `run_full_pipeline` and the manual trigger, over an explicit
  state holding the `scraping_runs` table and the lock.  The bodies of the
  five phases are network-bound collaborator calls and enter as
  `Except`-valued outcomes in `PipelineEnv`; the control flow (per-candidate
  error capture, status selection, the outer handler, the `finally` release)
  is translated from the source.

Sentiment labels and run statuses are strings, exactly as the Python rows
store them.
-/

namespace InstagramCampaign

/-! ## Constants (src/app/core/constants.py, lines 9-12) -/

def VADER_POSITIVE_THRESHOLD : ℚ := 5 / 100

def VADER_NEGATIVE_THRESHOLD : ℚ := -5 / 100

def LLM_CONFIDENCE_THRESHOLD : ℚ := 7 / 10

def LLM_AMBIGUOUS_MIN_LENGTH : ℕ := 20

/-! ## Pipeline lock (src/app/scheduler/lock.py) -/

/-- The module-level state of `lock.py`: the `threading.Lock` bit and the
`_current_run_id` variable. -/
structure LockState where
  locked : Bool
  currentRunId : Option ℕ
deriving DecidableEq, Repr

/-- State at module import: lock free, no current run id. -/
def initialLockState : LockState := { locked := false, currentRunId := none }

/-- `acquire_pipeline_lock(run_id)` (lock.py lines 17-27): non-blocking
acquire; on success stores the run id and returns True, otherwise returns
False leaving everything unchanged. -/
def acquire_pipeline_lock (runId : ℕ) (s : LockState) : Bool × LockState :=
  if s.locked then (false, s)
  else (true, { locked := true, currentRunId := some runId })

/-- `release_pipeline_lock()` (lock.py lines 30-41): clears
`_current_run_id`, then releases the lock swallowing the `RuntimeError`
raised when it was not held; the result is always the free state. -/
def release_pipeline_lock (_s : LockState) : LockState :=
  { locked := false, currentRunId := none }

/-- `get_current_run_id()` (lock.py lines 44-46). -/
def get_current_run_id (s : LockState) : Option ℕ := s.currentRunId

/-- `is_pipeline_running()` (lock.py lines 49-51): `_current_run_id is not
None`. -/
def is_pipeline_running (s : LockState) : Bool := s.currentRunId.isSome

/-- The two operations a client of lock.py can perform. -/
inductive LockOp where
  | tryAcquire (runId : ℕ)
  | release
deriving DecidableEq, Repr

def applyLockOp (s : LockState) : LockOp → LockState
  | LockOp.tryAcquire runId => (acquire_pipeline_lock runId s).2
  | LockOp.release => release_pipeline_lock s

def runLockOps (s : LockState) (ops : List LockOp) : LockState :=
  ops.foldl applyLockOp s

/-- A holder is recorded only while the lock bit is held. -/
def LockInv (s : LockState) : Prop :=
  s.currentRunId.isSome = true → s.locked = true

lemma lockInv_applyLockOp (s : LockState) (op : LockOp) (h : LockInv s) :
    LockInv (applyLockOp s op) := by
  cases op with
  | tryAcquire runId =>
    by_cases hl : s.locked
    · simpa [applyLockOp, acquire_pipeline_lock, hl] using h
    · simp [applyLockOp, acquire_pipeline_lock, hl, LockInv]
  | release => simp [applyLockOp, release_pipeline_lock, LockInv]

lemma lockInv_runLockOps (ops : List LockOp) (s : LockState) (h : LockInv s) :
    LockInv (runLockOps s ops) := by
  induction ops generalizing s with
  | nil => exact h
  | cons op ops ih =>
    exact ih (applyLockOp s op) (lockInv_applyLockOp s op h)

/-- C1: `try_acquire` on a free lock returns true and sets the holder to the
given run id; a `try_acquire` while held returns false and changes nothing
(holder included); `release` always yields the free state with no holder and
is idempotent, hence safe to call any number of times; and in every state
reachable from the initial one a holder is recorded only while the lock is
held — there is at most one holder at any moment (the holder field holds at
most one run id by construction). -/
theorem pipeline_lock_spec (s : LockState) (runId : ℕ) :
    (s.locked = false →
      (acquire_pipeline_lock runId s).1 = true ∧
      (acquire_pipeline_lock runId s).2.currentRunId = some runId) ∧
    (s.locked = true →
      (acquire_pipeline_lock runId s).1 = false ∧
      (acquire_pipeline_lock runId s).2 = s) ∧
    ((release_pipeline_lock s).locked = false ∧
      (release_pipeline_lock s).currentRunId = none) ∧
    release_pipeline_lock (release_pipeline_lock s) = release_pipeline_lock s ∧
    (∀ ops : List LockOp,
      (runLockOps initialLockState ops).currentRunId.isSome = true →
      (runLockOps initialLockState ops).locked = true) := by
  refine ⟨?_, ?_, ?_, ?_, ?_⟩
  · intro h; simp [acquire_pipeline_lock, h]
  · intro h; simp [acquire_pipeline_lock, h]
  · simp [release_pipeline_lock]
  · simp [release_pipeline_lock]
  · intro ops
    exact lockInv_runLockOps ops initialLockState (by simp [initialLockState, LockInv])

/-- C1 witness: the lock operations evaluated at concrete states. -/
theorem pipeline_lock_spec_witness :
    (acquire_pipeline_lock 5 initialLockState).1 = true ∧
    (acquire_pipeline_lock 5 initialLockState).2.currentRunId = some 5 ∧
    (acquire_pipeline_lock 7 (acquire_pipeline_lock 5 initialLockState).2).1 = false ∧
    (release_pipeline_lock (acquire_pipeline_lock 5 initialLockState).2).currentRunId = none := by
  have h1 := (pipeline_lock_spec initialLockState 5).1 (by rfl)
  have h2 := ((pipeline_lock_spec (acquire_pipeline_lock 5 initialLockState).2 7).2.1) (by rfl)
  have h3 := (pipeline_lock_spec (acquire_pipeline_lock 5 initialLockState).2 7).2.2.1
  exact ⟨h1.1, h1.2, h2.1, h3.2⟩

/-! ## VADER baseline classification (src/app/services/sentiment.py, Story 1.4)

The `vaderSentiment` analyzer is a third-party collaborator; its
`polarity_scores` result enters as an oracle `String → PolarityScores`.
Everything after that call is translated from `analyze_sentiment_vader`. -/

/-- The dict returned by `SentimentIntensityAnalyzer.polarity_scores`. -/
structure PolarityScores where
  compound : ℚ
  pos : ℚ
  neg : ℚ
  neu : ℚ
deriving DecidableEq, Repr

/-- The dict returned by `analyze_sentiment_vader` (sentiment.py
lines 55-83). -/
structure VaderResult where
  vader_compound : ℚ
  vader_positive : ℚ
  vader_negative : ℚ
  vader_neutral : ℚ
  vader_label : String
deriving DecidableEq, Repr

/-- `analyze_sentiment_vader(comment_text)` (sentiment.py lines 55-83):
label by the compound thresholds, inclusive on each boundary. -/
def analyze_sentiment_vader (polarity_scores : String → PolarityScores)
    (comment_text : String) : VaderResult :=
  let scores := polarity_scores comment_text
  let compound := scores.compound
  let label :=
    if compound ≥ VADER_POSITIVE_THRESHOLD then "positive"
    else if compound ≤ VADER_NEGATIVE_THRESHOLD then "negative"
    else "neutral"
  { vader_compound := compound
    vader_positive := scores.pos
    vader_negative := scores.neg
    vader_neutral := scores.neu
    vader_label := label }

/-- C7: thresholding of the baseline classifier.  `c ≥ 0.05` gives
"positive", `c ≤ -0.05` gives "negative" (both boundaries inclusive),
the open band in between gives "neutral"; and whenever the analyzer
scores the empty text with compound 0 — which the real VADER does, an
empty text hits no lexicon entry — the empty text is labelled
"neutral". -/
theorem vader_threshold_spec (polarity_scores : String → PolarityScores)
    (comment_text : String) :
    ((polarity_scores comment_text).compound ≥ VADER_POSITIVE_THRESHOLD →
      (analyze_sentiment_vader polarity_scores comment_text).vader_label = "positive") ∧
    ((polarity_scores comment_text).compound ≤ VADER_NEGATIVE_THRESHOLD →
      (analyze_sentiment_vader polarity_scores comment_text).vader_label = "negative") ∧
    (VADER_NEGATIVE_THRESHOLD < (polarity_scores comment_text).compound →
      (polarity_scores comment_text).compound < VADER_POSITIVE_THRESHOLD →
      (analyze_sentiment_vader polarity_scores comment_text).vader_label = "neutral") ∧
    ((polarity_scores "").compound = 0 →
      (analyze_sentiment_vader polarity_scores "").vader_label = "neutral") := by
  refine ⟨?_, ?_, ?_, ?_⟩
  · intro h; simp [analyze_sentiment_vader, h]
  · intro h
    have hlt : ¬ (polarity_scores comment_text).compound ≥ VADER_POSITIVE_THRESHOLD := by
      simp only [VADER_POSITIVE_THRESHOLD, VADER_NEGATIVE_THRESHOLD] at h ⊢
      intro hge; linarith
    simp [analyze_sentiment_vader, hlt, h]
  · intro h1 h2
    have hge : ¬ (polarity_scores comment_text).compound ≥ VADER_POSITIVE_THRESHOLD :=
      not_le.mpr h2
    have hle : ¬ (polarity_scores comment_text).compound ≤ VADER_NEGATIVE_THRESHOLD :=
      not_le.mpr h1
    simp [analyze_sentiment_vader, hge, hle]
  · intro h0
    have hge : ¬ (polarity_scores "").compound ≥ VADER_POSITIVE_THRESHOLD := by
      rw [h0]; norm_num [VADER_POSITIVE_THRESHOLD]
    have hle : ¬ (polarity_scores "").compound ≤ VADER_NEGATIVE_THRESHOLD := by
      rw [h0]; norm_num [VADER_NEGATIVE_THRESHOLD]
    simp [analyze_sentiment_vader, hge, hle]

/-- C7 witness: the classifier evaluated at the exact boundary values
0.05, -0.05, 0.049, -0.049 and 0 (an analyzer scoring the empty text 0). -/
theorem vader_threshold_spec_witness :
    (analyze_sentiment_vader (fun _ => ⟨5/100, 0, 0, 1⟩) "boundary").vader_label = "positive" ∧
    (analyze_sentiment_vader (fun _ => ⟨-5/100, 0, 0, 1⟩) "boundary").vader_label = "negative" ∧
    (analyze_sentiment_vader (fun _ => ⟨49/1000, 0, 0, 1⟩) "inside").vader_label = "neutral" ∧
    (analyze_sentiment_vader (fun _ => ⟨-49/1000, 0, 0, 1⟩) "inside").vader_label = "neutral" ∧
    (analyze_sentiment_vader (fun _ => ⟨0, 0, 0, 1⟩) "").vader_label = "neutral" := by
  refine ⟨?_, ?_, ?_, ?_, ?_⟩
  · exact (vader_threshold_spec (fun _ => ⟨5/100, 0, 0, 1⟩) "boundary").1
      (by norm_num [VADER_POSITIVE_THRESHOLD])
  · exact (vader_threshold_spec (fun _ => ⟨-5/100, 0, 0, 1⟩) "boundary").2.1
      (by norm_num [VADER_NEGATIVE_THRESHOLD])
  · exact (vader_threshold_spec (fun _ => ⟨49/1000, 0, 0, 1⟩) "inside").2.2.1
      (by norm_num [VADER_NEGATIVE_THRESHOLD])
      (by norm_num [VADER_POSITIVE_THRESHOLD])
  · exact (vader_threshold_spec (fun _ => ⟨-49/1000, 0, 0, 1⟩) "inside").2.2.1
      (by norm_num [VADER_NEGATIVE_THRESHOLD])
      (by norm_num [VADER_POSITIVE_THRESHOLD])
  · exact (vader_threshold_spec (fun _ => ⟨0, 0, 0, 1⟩) "whatever").2.2.2 rfl

/-! ## SentimentScore rows and the VADER batch (sentiment.py, lines 120-193)

A row of the `sentiment_scores` table (src/app/models/sentiment.py,
`SentimentScoreCreate`).  Comment ids are abstracted as naturals, labels as
the strings the rows store. -/

structure SentimentScore where
  comment_id : ℕ
  vader_compound : ℚ
  vader_positive : ℚ
  vader_negative : ℚ
  vader_neutral : ℚ
  vader_label : String
  final_label : String
  llm_label : Option String
  llm_confidence : Option ℚ
  llm_model : Option String
deriving DecidableEq, Repr

/-- The `SentimentScoreCreate` built for one comment in
`analyze_comments_batch` (sentiment.py lines 148-165): `final_label` is the
VADER label and every llm field is None. -/
def mk_sentiment_score (polarity_scores : String → PolarityScores)
    (comment : ℕ × String) : SentimentScore :=
  let v := analyze_sentiment_vader polarity_scores comment.2
  { comment_id := comment.1
    vader_compound := v.vader_compound
    vader_positive := v.vader_positive
    vader_negative := v.vader_negative
    vader_neutral := v.vader_neutral
    vader_label := v.vader_label
    final_label := v.vader_label
    llm_label := none
    llm_confidence := none
    llm_model := none }

/-- `analyze_comments_batch(comments)` (sentiment.py lines 120-193).  The
data-store insert is the oracle `insertOk` (False models the caught
exception of lines 175-183: UNIQUE-constraint violation or other DB error,
logged and skipped).  The returned list models the rows persisted — the
code appends exactly the rows whose insert succeeded. -/
def analyze_comments_batch (polarity_scores : String → PolarityScores)
    (insertOk : ℕ → Bool) (comments : List (ℕ × String)) : List SentimentScore :=
  comments.foldl
    (fun results comment =>
      if insertOk comment.1 then results ++ [mk_sentiment_score polarity_scores comment]
      else results)
    []

lemma analyze_comments_batch_foldl (polarity_scores : String → PolarityScores)
    (insertOk : ℕ → Bool) (comments : List (ℕ × String))
    (acc : List SentimentScore) :
    comments.foldl
      (fun results comment =>
        if insertOk comment.1 then results ++ [mk_sentiment_score polarity_scores comment]
        else results)
      acc
      = acc ++ (comments.filter (fun c => insertOk c.1)).map
          (mk_sentiment_score polarity_scores) := by
  induction comments generalizing acc with
  | nil => simp
  | cons c cs ih =>
    by_cases h : insertOk c.1
    · simp only [List.foldl_cons, h, if_pos]
      rw [ih]
      simp [List.filter_cons, h]
    · simp only [List.foldl_cons, h, Bool.false_eq_true, if_false]
      rw [ih]
      simp [List.filter_cons, h]

/-- The batch equals the successfully-inserted comments, in order. -/
lemma analyze_comments_batch_eq (polarity_scores : String → PolarityScores)
    (insertOk : ℕ → Bool) (comments : List (ℕ × String)) :
    analyze_comments_batch polarity_scores insertOk comments
      = (comments.filter (fun c => insertOk c.1)).map
          (mk_sentiment_score polarity_scores) := by
  unfold analyze_comments_batch
  simpa using analyze_comments_batch_foldl polarity_scores insertOk comments []

/-- C8: when every insert succeeds, `analyze_comments_batch` persists
exactly one SentimentScore per input comment, each with `final_label` equal
to the VADER label and all llm fields None; an item whose insert fails is
skipped (no exception) and the batch degenerates to the batch over the
remaining items — in general the output is exactly the successfully
inserted subset, in input order. -/
theorem analyze_comments_batch_spec (polarity_scores : String → PolarityScores)
    (insertOk : ℕ → Bool) (comments : List (ℕ × String)) :
    ((∀ c ∈ comments, insertOk c.1 = true) →
      (analyze_comments_batch polarity_scores insertOk comments).length = comments.length) ∧
    (∀ row ∈ analyze_comments_batch polarity_scores insertOk comments,
      row.final_label = row.vader_label ∧ row.llm_label = none ∧
      row.llm_confidence = none ∧ row.llm_model = none) ∧
    (∀ c cs, insertOk c.1 = false →
      analyze_comments_batch polarity_scores insertOk (c :: cs)
        = analyze_comments_batch polarity_scores insertOk cs) ∧
    analyze_comments_batch polarity_scores insertOk comments
      = (comments.filter (fun c => insertOk c.1)).map
          (mk_sentiment_score polarity_scores) := by
  refine ⟨?_, ?_, ?_, analyze_comments_batch_eq polarity_scores insertOk comments⟩
  · intro hall
    rw [analyze_comments_batch_eq, List.length_map, List.filter_length_eq_length.mpr hall]
  · intro row hrow
    rw [analyze_comments_batch_eq] at hrow
    obtain ⟨c, _, rfl⟩ := List.mem_map.mp hrow
    exact ⟨rfl, rfl, rfl, rfl⟩
  · intro c cs h
    rw [analyze_comments_batch_eq, analyze_comments_batch_eq,
      List.filter_cons_of_neg (by simp [h])]

/-- C8 witness: five comments with no prior scores (all inserts succeed)
yield exactly five rows, each with the baseline final label and null llm
fields; and a failing first insert is skipped while the rest proceed. -/
theorem analyze_comments_batch_spec_witness :
    (analyze_comments_batch (fun _ => ⟨0, 0, 0, 1⟩) (fun _ => true)
        [(1, "a"), (2, "b"), (3, "c"), (4, "d"), (5, "e")]).length = 5 ∧
    (analyze_comments_batch (fun _ => ⟨0, 0, 0, 1⟩) (fun cid => cid ≠ 1)
        [(1, "a"), (2, "b")]
      = analyze_comments_batch (fun _ => ⟨0, 0, 0, 1⟩) (fun cid => cid ≠ 1) [(2, "b")]) := by
  constructor
  · have h := (analyze_comments_batch_spec (fun _ => ⟨0, 0, 0, 1⟩) (fun _ => true)
      [(1, "a"), (2, "b"), (3, "c"), (4, "d"), (5, "e")]).1
    simpa using h (by intro c _; rfl)
  · exact (analyze_comments_batch_spec (fun _ => ⟨0, 0, 0, 1⟩) (fun cid => cid ≠ 1)
      []).2.2.1 (1, "a") [(2, "b")] (by simp)

/-! ## Ambiguity gate (sentiment.py, lines 395-446)

The `comments` table enters as an association list id → text; the dict
built by `_get_ambiguous_comments` is modelled by first-match lookup (ids
are unique in the table), a missing id giving `""` as in
`comments_by_id.get(cid, "")`. -/

/-- A dict of the eligible list of `_get_ambiguous_comments`. -/
structure AmbItem where
  comment_id : ℕ
  text : String
  vader_compound : ℚ
  vader_label : String
deriving DecidableEq, Repr

/-- `comments_by_id.get(cid, "")` (sentiment.py lines 429-437). -/
def lookupText (comments : List (ℕ × String)) (cid : ℕ) : String :=
  ((comments.find? fun c => c.1 = cid).map fun c => c.2).getD ""

/-- The item the gate emits for a score row. -/
def mkAmbItem (comments : List (ℕ × String)) (r : SentimentScore) : AmbItem :=
  { comment_id := r.comment_id
    text := lookupText comments r.comment_id
    vader_compound := r.vader_compound
    vader_label := r.vader_label }

/-- `_get_ambiguous_comments()` (sentiment.py lines 395-446): select score
rows with compound strictly between the thresholds and `llm_label` null
(the `.gt`/`.lt`/`.is_("llm_label", "null")` query), then keep those whose
comment text is strictly longer than `LLM_AMBIGUOUS_MIN_LENGTH`.  The early
return on an empty query result coincides with filtering an empty list. -/
def _get_ambiguous_comments (db : List SentimentScore)
    (comments : List (ℕ × String)) : List AmbItem :=
  let ambiguous_scores := db.filter fun s =>
    decide (VADER_NEGATIVE_THRESHOLD < s.vader_compound) &&
    decide (s.vader_compound < VADER_POSITIVE_THRESHOLD) &&
    s.llm_label.isNone
  ambiguous_scores.filterMap fun s =>
    if (lookupText comments s.comment_id).length > LLM_AMBIGUOUS_MIN_LENGTH then
      some (mkAmbItem comments s)
    else none

/-- Gate membership, unfolded to the three eligibility conditions. -/
lemma mem_ambiguous_iff (db : List SentimentScore) (comments : List (ℕ × String))
    (item : AmbItem) :
    item ∈ _get_ambiguous_comments db comments ↔
      ∃ r, r ∈ db ∧
        VADER_NEGATIVE_THRESHOLD < r.vader_compound ∧
        r.vader_compound < VADER_POSITIVE_THRESHOLD ∧
        r.llm_label = none ∧
        (lookupText comments r.comment_id).length > LLM_AMBIGUOUS_MIN_LENGTH ∧
        item = mkAmbItem comments r := by
  unfold _get_ambiguous_comments
  constructor
  · intro h
    obtain ⟨r, hr, hsome⟩ := List.mem_filterMap.mp h
    obtain ⟨hmem, hp⟩ := List.mem_filter.mp hr
    simp only [Bool.and_eq_true, decide_eq_true_eq, Option.isNone_iff_eq_none] at hp
    by_cases hlen : (lookupText comments r.comment_id).length > LLM_AMBIGUOUS_MIN_LENGTH
    · rw [if_pos hlen] at hsome
      exact ⟨r, hmem, hp.1.1, hp.1.2, hp.2, hlen, (Option.some_injective _ hsome).symm⟩
    · rw [if_neg hlen] at hsome
      cases hsome
  · rintro ⟨r, hmem, hgt, hlt, hnone, hlen, rfl⟩
    refine List.mem_filterMap.mpr ⟨r, List.mem_filter.mpr ⟨hmem, ?_⟩, by rw [if_pos hlen]⟩
    simp [hgt, hlt, hnone]

/-- C5: the gate selects exactly those score rows whose compound lies
strictly between -0.05 and 0.05, whose llm label is still null, and whose
comment text is strictly longer than 20 characters — and nothing else.  The
gate only reads; it is a pure function of the two tables. -/
theorem ambiguity_gate_spec (db : List SentimentScore) (comments : List (ℕ × String))
    (item : AmbItem) :
    item ∈ _get_ambiguous_comments db comments ↔
      ∃ r, r ∈ db ∧
        VADER_NEGATIVE_THRESHOLD < r.vader_compound ∧
        r.vader_compound < VADER_POSITIVE_THRESHOLD ∧
        r.llm_label = none ∧
        (lookupText comments r.comment_id).length > LLM_AMBIGUOUS_MIN_LENGTH ∧
        item = mkAmbItem comments r :=
  mem_ambiguous_iff db comments item

/-! ## LLM reconciliation (sentiment.py, Story 1.5, lines 338-556)

`analyze_sentiment_llm` performs an HTTP call and JSON parsing; the parsed
response body enters as `LLMRaw` (the dict fields after `content.get`,
whose defaults "neutral" and 0.0 are the values a missing key yields), with
transport / parsing / value errors as the `Except.error` case of the call
oracle.  The label coercion and confidence clamping of lines 380-386 are
translated below. -/

/-- The parsed JSON content of the LLM response: `content.get("label",
"neutral")` and `float(content.get("confidence", 0.0))`. -/
structure LLMRaw where
  label : String
  confidence : ℚ
deriving DecidableEq, Repr

/-- The dict `analyze_sentiment_llm` returns (sentiment.py lines 388-392). -/
structure LLMOutcome where
  llm_label : String
  llm_confidence : ℚ
  llm_model : String
deriving DecidableEq, Repr

/-- Lines 381-383: any label outside the three canonical values becomes
"neutral". -/
def coerce_llm_label (label : String) : String :=
  if label = "positive" ∨ label = "negative" ∨ label = "neutral" then label
  else "neutral"

/-- Line 386: `confidence = max(0.0, min(1.0, confidence))`. -/
def clamp01 (confidence : ℚ) : ℚ := max 0 (min 1 confidence)

/-- The pure tail of `analyze_sentiment_llm(comment_text)` (sentiment.py
lines 380-392), applied to the parsed response; `model` is
`settings.LLM_MODEL`. -/
def analyze_sentiment_llm (model : String) (raw : LLMRaw) : LLMOutcome :=
  { llm_label := coerce_llm_label raw.label
    llm_confidence := clamp01 raw.confidence
    llm_model := model }

/-- The mutable state of `reclassify_ambiguous_comments` (sentiment.py
lines 465-472): the `sentiment_scores` table and the four counters. -/
structure ReconState where
  db : List SentimentScore
  api_calls_made : ℕ
  confidence_upgrades : ℕ
  retained_vader_label : ℕ
  reclassified_count : ℕ
deriving DecidableEq, Repr

/-- The row after the update of sentiment.py lines 496-502 (the
`updated_at` timestamp column is not modelled). -/
def reconciledRow (r : SentimentScore) (res : LLMOutcome) (finalLabel : String) :
    SentimentScore :=
  { r with
    llm_label := some res.llm_label
    llm_confidence := some res.llm_confidence
    llm_model := some res.llm_model
    final_label := finalLabel }

/-- The `update(...).eq("comment_id", ...)` call: every row of the table
with the given comment id receives the new fields. -/
def update_sentiment_score (db : List SentimentScore) (cid : ℕ)
    (res : LLMOutcome) (finalLabel : String) : List SentimentScore :=
  db.map fun r => if r.comment_id = cid then reconciledRow r res finalLabel else r

/-- The body of the `for item in ambiguous` loop of
`reclassify_ambiguous_comments` (sentiment.py lines 474-527).  The whole
LLM call (transport + parse + value conversion) is the oracle `llm`; an
`Except.error` is the caught `(httpx.HTTPError, json.JSONDecodeError,
KeyError, ValueError)` (or the catch-all) branch: log and continue,
touching nothing. -/
def processAmbiguousItem (llm : String → Except Unit LLMRaw) (model : String)
    (s : ReconState) (item : AmbItem) : ReconState :=
  match llm item.text with
  | Except.error _ => s
  | Except.ok raw =>
    let res := analyze_sentiment_llm model raw
    if res.llm_confidence ≥ LLM_CONFIDENCE_THRESHOLD then
      { db := update_sentiment_score s.db item.comment_id res res.llm_label
        api_calls_made := s.api_calls_made + 1
        confidence_upgrades := s.confidence_upgrades + 1
        retained_vader_label := s.retained_vader_label
        reclassified_count := s.reclassified_count + 1 }
    else
      { db := update_sentiment_score s.db item.comment_id res item.vader_label
        api_calls_made := s.api_calls_made + 1
        confidence_upgrades := s.confidence_upgrades
        retained_vader_label := s.retained_vader_label + 1
        reclassified_count := s.reclassified_count + 1 }

/-- `reclassify_ambiguous_comments()` (sentiment.py lines 449-556):
select the ambiguous items, then process them in order. -/
def reclassify_ambiguous_comments (llm : String → Except Unit LLMRaw)
    (model : String) (db : List SentimentScore)
    (comments : List (ℕ × String)) : ReconState :=
  (_get_ambiguous_comments db comments).foldl (processAmbiguousItem llm model)
    { db := db
      api_calls_made := 0
      confidence_upgrades := 0
      retained_vader_label := 0
      reclassified_count := 0 }

/-- C3: for an item whose LLM call succeeds, returning (after label
coercion and confidence clamping) confidence `c`: if `c ≥ 0.7` the row's
`final_label` becomes the secondary label and the upgrades counter is
incremented; if `c < 0.7` the `final_label` is set to the item's baseline
VADER label and the retained counter is incremented; in both branches the
secondary label, confidence and model are persisted on every row of that
comment, and the api-calls and reclassified counters are incremented. -/
theorem reconciliation_confidence_spec (llm : String → Except Unit LLMRaw)
    (model : String) (s : ReconState) (item : AmbItem) (raw : LLMRaw)
    (hok : llm item.text = Except.ok raw) :
    ((analyze_sentiment_llm model raw).llm_confidence ≥ LLM_CONFIDENCE_THRESHOLD →
      (∀ r ∈ s.db, r.comment_id = item.comment_id →
        reconciledRow r (analyze_sentiment_llm model raw)
          (analyze_sentiment_llm model raw).llm_label
          ∈ (processAmbiguousItem llm model s item).db) ∧
      (processAmbiguousItem llm model s item).confidence_upgrades
        = s.confidence_upgrades + 1 ∧
      (processAmbiguousItem llm model s item).retained_vader_label
        = s.retained_vader_label) ∧
    ((analyze_sentiment_llm model raw).llm_confidence < LLM_CONFIDENCE_THRESHOLD →
      (∀ r ∈ s.db, r.comment_id = item.comment_id →
        reconciledRow r (analyze_sentiment_llm model raw) item.vader_label
          ∈ (processAmbiguousItem llm model s item).db) ∧
      (processAmbiguousItem llm model s item).retained_vader_label
        = s.retained_vader_label + 1 ∧
      (processAmbiguousItem llm model s item).confidence_upgrades
        = s.confidence_upgrades) ∧
    (processAmbiguousItem llm model s item).api_calls_made = s.api_calls_made + 1 ∧
    (processAmbiguousItem llm model s item).reclassified_count
      = s.reclassified_count + 1 := by
  have hproc : processAmbiguousItem llm model s item =
      if (analyze_sentiment_llm model raw).llm_confidence ≥ LLM_CONFIDENCE_THRESHOLD then
        { db := update_sentiment_score s.db item.comment_id
            (analyze_sentiment_llm model raw) (analyze_sentiment_llm model raw).llm_label
          api_calls_made := s.api_calls_made + 1
          confidence_upgrades := s.confidence_upgrades + 1
          retained_vader_label := s.retained_vader_label
          reclassified_count := s.reclassified_count + 1 }
      else
        { db := update_sentiment_score s.db item.comment_id
            (analyze_sentiment_llm model raw) item.vader_label
          api_calls_made := s.api_calls_made + 1
          confidence_upgrades := s.confidence_upgrades
          retained_vader_label := s.retained_vader_label + 1
          reclassified_count := s.reclassified_count + 1 } := by
    unfold processAmbiguousItem
    rw [hok]
  by_cases hconf :
      (analyze_sentiment_llm model raw).llm_confidence ≥ LLM_CONFIDENCE_THRESHOLD
  · rw [hproc, if_pos hconf]
    refine ⟨fun _ => ⟨?_, rfl, rfl⟩, fun hlt => absurd hconf (not_le.mpr hlt), rfl, rfl⟩
    intro r hr hcid
    exact List.mem_map.mpr ⟨r, hr, by rw [if_pos hcid]⟩
  · rw [hproc, if_neg hconf]
    refine ⟨fun hge => absurd hge hconf, fun _ => ⟨?_, rfl, rfl⟩, rfl, rfl⟩
    intro r hr hcid
    exact List.mem_map.mpr ⟨r, hr, by rw [if_pos hcid]⟩

/-- C3 witness: a high-confidence (0.8) and a low-confidence (0.5) success
on a one-row table, evaluated concretely. -/
theorem reconciliation_confidence_spec_witness :
    (processAmbiguousItem (fun _ => Except.ok ⟨"positive", 8/10⟩) "gpt-4o-mini"
        ⟨[⟨1, 0, 0, 0, 1, "neutral", "neutral", none, none, none⟩], 0, 0, 0, 0⟩
        ⟨1, "some ambiguous comment text", 0, "neutral"⟩).confidence_upgrades = 1 ∧
    (⟨1, 0, 0, 0, 1, "neutral", "positive", some "positive", some (8/10),
        some "gpt-4o-mini"⟩ : SentimentScore)
      ∈ (processAmbiguousItem (fun _ => Except.ok ⟨"positive", 8/10⟩) "gpt-4o-mini"
        ⟨[⟨1, 0, 0, 0, 1, "neutral", "neutral", none, none, none⟩], 0, 0, 0, 0⟩
        ⟨1, "some ambiguous comment text", 0, "neutral"⟩).db ∧
    (processAmbiguousItem (fun _ => Except.ok ⟨"positive", 5/10⟩) "gpt-4o-mini"
        ⟨[⟨1, 0, 0, 0, 1, "neutral", "neutral", none, none, none⟩], 0, 0, 0, 0⟩
        ⟨1, "some ambiguous comment text", 0, "neutral"⟩).retained_vader_label = 1 ∧
    (⟨1, 0, 0, 0, 1, "neutral", "neutral", some "positive", some (5/10),
        some "gpt-4o-mini"⟩ : SentimentScore)
      ∈ (processAmbiguousItem (fun _ => Except.ok ⟨"positive", 5/10⟩) "gpt-4o-mini"
        ⟨[⟨1, 0, 0, 0, 1, "neutral", "neutral", none, none, none⟩], 0, 0, 0, 0⟩
        ⟨1, "some ambiguous comment text", 0, "neutral"⟩).db := by
  have hhi := reconciliation_confidence_spec (fun _ => Except.ok ⟨"positive", 8/10⟩)
    "gpt-4o-mini"
    ⟨[⟨1, 0, 0, 0, 1, "neutral", "neutral", none, none, none⟩], 0, 0, 0, 0⟩
    ⟨1, "some ambiguous comment text", 0, "neutral"⟩ ⟨"positive", 8/10⟩ rfl
  have hlo := reconciliation_confidence_spec (fun _ => Except.ok ⟨"positive", 5/10⟩)
    "gpt-4o-mini"
    ⟨[⟨1, 0, 0, 0, 1, "neutral", "neutral", none, none, none⟩], 0, 0, 0, 0⟩
    ⟨1, "some ambiguous comment text", 0, "neutral"⟩ ⟨"positive", 5/10⟩ rfl
  have hconf_hi : (analyze_sentiment_llm "gpt-4o-mini"
      (⟨"positive", 8/10⟩ : LLMRaw)).llm_confidence ≥ LLM_CONFIDENCE_THRESHOLD := by
    norm_num [analyze_sentiment_llm, clamp01, LLM_CONFIDENCE_THRESHOLD]
  have hconf_lo : (analyze_sentiment_llm "gpt-4o-mini"
      (⟨"positive", 5/10⟩ : LLMRaw)).llm_confidence < LLM_CONFIDENCE_THRESHOLD := by
    norm_num [analyze_sentiment_llm, clamp01, LLM_CONFIDENCE_THRESHOLD]
  obtain ⟨hmemhi, hupg, _⟩ := hhi.1 hconf_hi
  obtain ⟨hmemlo, hret, _⟩ := hlo.2.1 hconf_lo
  have h810 : clamp01 (8/10 : ℚ) = 8/10 := by norm_num [clamp01]
  have h510 : clamp01 (5/10 : ℚ) = 5/10 := by norm_num [clamp01]
  refine ⟨by rw [hupg], ?_, by rw [hret], ?_⟩
  · have := hmemhi ⟨1, 0, 0, 0, 1, "neutral", "neutral", none, none, none⟩
      (by simp) rfl
    simpa [reconciledRow, analyze_sentiment_llm, coerce_llm_label, h810] using this
  · have := hmemlo ⟨1, 0, 0, 0, 1, "neutral", "neutral", none, none, none⟩
      (by simp) rfl
    simpa [reconciledRow, analyze_sentiment_llm, coerce_llm_label, h510] using this

/-- C6: when the LLM call for an item raises a transport, parsing or value
error, the loop body leaves the whole state — in particular the score table
and the api-calls counter — unchanged, and processing the batch starting at
that item is exactly processing the remaining items: no single item failure
aborts the batch. -/
theorem reconciliation_failure_isolation (llm : String → Except Unit LLMRaw)
    (model : String) (s : ReconState) (item : AmbItem) (rest : List AmbItem)
    (e : Unit) (herr : llm item.text = Except.error e) :
    processAmbiguousItem llm model s item = s ∧
    (processAmbiguousItem llm model s item).db = s.db ∧
    (processAmbiguousItem llm model s item).api_calls_made = s.api_calls_made ∧
    List.foldl (processAmbiguousItem llm model) s (item :: rest)
      = List.foldl (processAmbiguousItem llm model) s rest := by
  have hskip : processAmbiguousItem llm model s item = s := by
    unfold processAmbiguousItem
    rw [herr]
  refine ⟨hskip, by rw [hskip], by rw [hskip], ?_⟩
  rw [List.foldl_cons, hskip]

/-- C6 witness: a failing call on a concrete state, followed by a
succeeding item, leaves the first row untouched and still processes the
second item. -/
theorem reconciliation_failure_isolation_witness :
    processAmbiguousItem (fun _ => Except.error ()) "gpt-4o-mini"
        ⟨[⟨1, 0, 0, 0, 1, "neutral", "neutral", none, none, none⟩], 0, 0, 0, 0⟩
        ⟨1, "some ambiguous comment text", 0, "neutral"⟩
      = ⟨[⟨1, 0, 0, 0, 1, "neutral", "neutral", none, none, none⟩], 0, 0, 0, 0⟩ ∧
    List.foldl
        (processAmbiguousItem (fun _ => Except.error ()) "gpt-4o-mini")
        ⟨[⟨1, 0, 0, 0, 1, "neutral", "neutral", none, none, none⟩], 0, 0, 0, 0⟩
        [⟨1, "some ambiguous comment text", 0, "neutral"⟩,
          ⟨2, "another ambiguous comment", 0, "neutral"⟩]
      = List.foldl
        (processAmbiguousItem (fun _ => Except.error ()) "gpt-4o-mini")
        ⟨[⟨1, 0, 0, 0, 1, "neutral", "neutral", none, none, none⟩], 0, 0, 0, 0⟩
        [⟨2, "another ambiguous comment", 0, "neutral"⟩] := by
  have h := reconciliation_failure_isolation (fun _ => Except.error ()) "gpt-4o-mini"
    ⟨[⟨1, 0, 0, 0, 1, "neutral", "neutral", none, none, none⟩], 0, 0, 0, 0⟩
    ⟨1, "some ambiguous comment text", 0, "neutral"⟩
    [⟨2, "another ambiguous comment", 0, "neutral"⟩] () rfl
  exact ⟨h.1, h.2.2.2⟩

/-! ## Idempotence of reconciliation (C4)

A successful update writes `some` into `llm_label`; a row whose `llm_label`
is still `none` after the loop was therefore never touched, and no
successfully-processed item carried its comment id. -/

lemma processItem_llmNone_mem (llm : String → Except Unit LLMRaw) (model : String)
    (s : ReconState) (item : AmbItem) (r : SentimentScore)
    (hr : r ∈ (processAmbiguousItem llm model s item).db)
    (hnone : r.llm_label = none) :
    r ∈ s.db ∧ ((∃ raw, llm item.text = Except.ok raw) → item.comment_id ≠ r.comment_id) := by
  cases hllm : llm item.text with
  | error e =>
    have hskip : processAmbiguousItem llm model s item = s := by
      unfold processAmbiguousItem
      rw [hllm]
    rw [hskip] at hr
    refine ⟨hr, ?_⟩
    rintro ⟨raw, hraw⟩
    exact absurd hraw (by simp [hllm])
  | ok raw =>
    have hupd : ∀ fl, r ∈ update_sentiment_score s.db item.comment_id
        (analyze_sentiment_llm model raw) fl →
        r ∈ s.db ∧ item.comment_id ≠ r.comment_id := by
      intro fl hmem
      obtain ⟨r0, hr0, heq⟩ := List.mem_map.mp hmem
      by_cases hcid : r0.comment_id = item.comment_id
      · rw [if_pos hcid] at heq
        rw [← heq] at hnone
        cases hnone
      · rw [if_neg hcid] at heq
        rw [heq] at hr0 hcid
        exact ⟨hr0, fun h => hcid h.symm⟩
    have hproc : processAmbiguousItem llm model s item =
        if (analyze_sentiment_llm model raw).llm_confidence
            ≥ LLM_CONFIDENCE_THRESHOLD then
          { db := update_sentiment_score s.db item.comment_id
              (analyze_sentiment_llm model raw)
              (analyze_sentiment_llm model raw).llm_label
            api_calls_made := s.api_calls_made + 1
            confidence_upgrades := s.confidence_upgrades + 1
            retained_vader_label := s.retained_vader_label
            reclassified_count := s.reclassified_count + 1 }
        else
          { db := update_sentiment_score s.db item.comment_id
              (analyze_sentiment_llm model raw) item.vader_label
            api_calls_made := s.api_calls_made + 1
            confidence_upgrades := s.confidence_upgrades
            retained_vader_label := s.retained_vader_label + 1
            reclassified_count := s.reclassified_count + 1 } := by
      unfold processAmbiguousItem
      rw [hllm]
    rw [hproc] at hr
    by_cases hconf : (analyze_sentiment_llm model raw).llm_confidence
        ≥ LLM_CONFIDENCE_THRESHOLD
    · rw [if_pos hconf] at hr
      exact ⟨(hupd _ hr).1, fun _ => (hupd _ hr).2⟩
    · rw [if_neg hconf] at hr
      exact ⟨(hupd _ hr).1, fun _ => (hupd _ hr).2⟩

lemma foldl_llmNone_mem (llm : String → Except Unit LLMRaw) (model : String)
    (items : List AmbItem) (s : ReconState) (r : SentimentScore)
    (hr : r ∈ (List.foldl (processAmbiguousItem llm model) s items).db)
    (hnone : r.llm_label = none) :
    r ∈ s.db ∧ ∀ item ∈ items,
      (∃ raw, llm item.text = Except.ok raw) → item.comment_id ≠ r.comment_id := by
  induction items generalizing s with
  | nil => exact ⟨hr, by simp⟩
  | cons item rest ih =>
    rw [List.foldl_cons] at hr
    obtain ⟨hmem1, hrest⟩ := ih (processAmbiguousItem llm model s item) hr
    obtain ⟨hmem0, hitem⟩ := processItem_llmNone_mem llm model s item r hmem1 hnone
    refine ⟨hmem0, ?_⟩
    intro x hx
    rcases List.mem_cons.mp hx with rfl | hx
    · exact hitem
    · exact hrest x hx

/-- C4: first, the ambiguity gate never selects a score row whose llm label
is already set; second, after one reconciliation run in which every
selected item's LLM call succeeds (so its update is persisted), running the
gate again over the updated table selects nothing — reconciliation is
idempotent and each row is reconciled at most once. -/
theorem reconciliation_idempotent (llm : String → Except Unit LLMRaw)
    (model : String) (db : List SentimentScore) (comments : List (ℕ × String)) :
    (∀ item ∈ _get_ambiguous_comments db comments,
      ∃ r, r ∈ db ∧ r.llm_label = none ∧ item = mkAmbItem comments r) ∧
    ((∀ item ∈ _get_ambiguous_comments db comments,
        ∃ raw, llm item.text = Except.ok raw) →
      _get_ambiguous_comments
          (reclassify_ambiguous_comments llm model db comments).db comments
        = []) := by
  constructor
  · intro item hitem
    obtain ⟨r, hmem, _, _, hnone, _, heq⟩ := (mem_ambiguous_iff db comments item).mp hitem
    exact ⟨r, hmem, hnone, heq⟩
  · intro hall
    rw [List.eq_nil_iff_forall_not_mem]
    intro item hitem
    obtain ⟨r, hmem', hgt, hlt, hnone, hlen, heq⟩ :=
      (mem_ambiguous_iff _ comments item).mp hitem
    obtain ⟨hmem0, hnotouched⟩ :=
      foldl_llmNone_mem llm model (_get_ambiguous_comments db comments)
        { db := db
          api_calls_made := 0
          confidence_upgrades := 0
          retained_vader_label := 0
          reclassified_count := 0 }
        r hmem' hnone
    have hgate : mkAmbItem comments r ∈ _get_ambiguous_comments db comments :=
      (mem_ambiguous_iff db comments (mkAmbItem comments r)).mpr
        ⟨r, hmem0, hgt, hlt, hnone, hlen, rfl⟩
    exact hnotouched (mkAmbItem comments r) hgate (hall _ hgate) rfl

/-- C4 witness: a one-row ambiguous table with a succeeding LLM call;
after reconciliation a second gate run selects nothing. -/
theorem reconciliation_idempotent_witness :
    _get_ambiguous_comments
        (reclassify_ambiguous_comments (fun _ => Except.ok ⟨"positive", 9/10⟩)
          "gpt-4o-mini"
          [⟨1, 0, 0, 0, 1, "neutral", "neutral", none, none, none⟩]
          [(1, "some sufficiently long comment")]).db
        [(1, "some sufficiently long comment")]
      = [] := by
  refine (reconciliation_idempotent (fun _ => Except.ok ⟨"positive", 9/10⟩)
    "gpt-4o-mini"
    [⟨1, 0, 0, 0, 1, "neutral", "neutral", none, none, none⟩]
    [(1, "some sufficiently long comment")]).2 ?_
  intro item _
  exact ⟨⟨"positive", 9/10⟩, rfl⟩

/-! ## Pipeline orchestration (src/app/services/pipeline.py)

A row of the `scraping_runs` table, reduced to the fields the orchestrator
writes: status, the duration column and whether `completed_at` was set
(timestamps themselves are not modelled, nor is the two-decimal rounding of
the duration — both are irrelevant to the claims).  The phase bodies are
collaborator calls; each enters as an `Except`-valued outcome in
`PipelineEnv`, while the control flow around them is translated from
`run_full_pipeline`. -/

structure RunRecord where
  id : ℕ
  status : String
  duration_seconds : Option ℚ
  completed : Bool
deriving DecidableEq, Repr

/-- `_create_scraping_run()` (src/app/services/scraping.py lines 155-163):
insert a row with status "running". -/
def _create_scraping_run (newId : ℕ) (runs : List RunRecord) : List RunRecord :=
  { id := newId, status := "running", duration_seconds := none, completed := false } :: runs

/-- `_update_run_status(run_id, status, duration_seconds)` (pipeline.py
lines 75-90): set status and `completed_at` on the matching rows, and the
duration when one is given. -/
def _update_run_status (runs : List RunRecord) (runId : ℕ) (status : String)
    (duration : Option ℚ) : List RunRecord :=
  runs.map fun r =>
    if r.id = runId then
      { r with
        status := status
        completed := true
        duration_seconds :=
          match duration with
          | some d => some d
          | none => r.duration_seconds }
    else r

/-- The collaborator outcomes one execution of `run_full_pipeline`
observes.  Each candidate of phase 1 carries the outcome of its
`scrape_posts` call (number of posts, or a raised exception); the phase
2-5 bodies are single collaborator calls whose unhandled exception, when
raised, reaches the orchestrator's outer handler. -/
structure PipelineEnv where
  candidates : List (String × Except Unit ℕ)
  commentsPhase : Except Unit ℕ
  vaderPhase : Except Unit ℕ
  llmPhase : Except Unit ℕ
  themesPhase : Except Unit ℕ
  elapsed : ℚ
deriving Repr

/-- `len(all_posts)` after phase 1: the posts of the candidates whose
scrape succeeded. -/
def pipeline_total_posts (env : PipelineEnv) : ℕ :=
  env.candidates.foldl (fun acc c => acc + (c.2.toOption.getD 0)) 0

/-- `has_errors` after phase 1 (pipeline.py lines 145-162): true iff some
per-candidate `scrape_posts` call raised. -/
def pipeline_has_errors (env : PipelineEnv) : Bool :=
  env.candidates.any fun c => c.2.toOption.isNone

/-- Phases 2-5 in sequence (pipeline.py lines 174-244): comment scraping
runs only when phase 1 collected posts; the first unhandled exception
aborts the sequence (and reaches the outer handler). -/
def pipeline_phases (env : PipelineEnv) : Except Unit ℕ := do
  let commentsScraped ←
    if pipeline_total_posts env = 0 then Except.ok 0 else env.commentsPhase
  let _ ← env.vaderPhase
  let _ ← env.llmPhase
  let _ ← env.themesPhase
  Except.ok commentsScraped

/-- The world `run_full_pipeline` reads and writes: the `scraping_runs`
table and the module-level lock. -/
structure PipelineState where
  runs : List RunRecord
  lock : LockState
deriving DecidableEq, Repr

/-- What `run_full_pipeline` returns. -/
inductive PipelineOutcome where
  | skipped
  | completed (status : String) (postsScraped commentsScraped : ℕ)
  | failed
deriving DecidableEq, Repr

/-- `run_full_pipeline(trigger)` (pipeline.py lines 93-298): create the
run record, try the lock (on failure mark the run "failed" with duration 0
and return the skip result, without releasing); otherwise run phase 1
(per-candidate errors only set `has_errors`), then phases 2-5; on success
persist "partial" when `has_errors` else "success", on an unhandled
exception persist "failed"; in both of those paths the `finally` block
releases the lock. -/
def run_full_pipeline (newRunId : ℕ) (env : PipelineEnv) (st : PipelineState) :
    PipelineOutcome × PipelineState :=
  let runs1 := _create_scraping_run newRunId st.runs
  let acq := acquire_pipeline_lock newRunId st.lock
  if acq.1 = false then
    (PipelineOutcome.skipped,
      { runs := _update_run_status runs1 newRunId "failed" (some 0), lock := acq.2 })
  else
    match pipeline_phases env with
    | Except.ok commentsScraped =>
      let status := if pipeline_has_errors env then "partial" else "success"
      (PipelineOutcome.completed status (pipeline_total_posts env) commentsScraped,
        { runs := _update_run_status runs1 newRunId status (some env.elapsed)
          lock := release_pipeline_lock acq.2 })
    | Except.error _ =>
      (PipelineOutcome.failed,
        { runs := _update_run_status runs1 newRunId "failed" (some env.elapsed)
          lock := release_pipeline_lock acq.2 })

/-- The status persisted for a run id (first matching row). -/
def runStatusOf (runs : List RunRecord) (runId : ℕ) : Option String :=
  (runs.find? fun r => r.id = runId).map fun r => r.status

lemma runStatusOf_update_create (runs : List RunRecord) (newRunId : ℕ)
    (status : String) (duration : Option ℚ) :
    runStatusOf
        (_update_run_status (_create_scraping_run newRunId runs) newRunId status duration)
        newRunId
      = some status := by
  simp [runStatusOf, _update_run_status, _create_scraping_run, List.find?]

lemma update_run_status_not_mem (runs : List RunRecord) (runId : ℕ) (status : String)
    (duration : Option ℚ) (h : ∀ r ∈ runs, r.id ≠ runId) :
    _update_run_status runs runId status duration = runs := by
  unfold _update_run_status
  induction runs with
  | nil => rfl
  | cons a as ih =>
    simp only [List.map_cons]
    rw [if_neg (h a (List.mem_cons_self a as)), ih (fun r hr => h r (List.mem_cons_of_mem a hr))]

/-- C2: an execution that acquires the lock.  If at least one per-candidate
post-scrape call raised and no unhandled exception escaped the phases, the
persisted terminal status of the run is "partial" and the lock is released
(free, no holder) when the call returns; if an unhandled exception escaped
a phase, the persisted terminal status is "failed" and the lock is still
released. -/
theorem pipeline_terminal_status_spec (newRunId : ℕ) (env : PipelineEnv)
    (st : PipelineState) (h_free : st.lock.locked = false) :
    (pipeline_has_errors env = true →
      (∃ n, pipeline_phases env = Except.ok n) →
      runStatusOf (run_full_pipeline newRunId env st).2.runs newRunId = some "partial" ∧
      (run_full_pipeline newRunId env st).2.lock.locked = false ∧
      (run_full_pipeline newRunId env st).2.lock.currentRunId = none) ∧
    ((∀ n, pipeline_phases env ≠ Except.ok n) →
      runStatusOf (run_full_pipeline newRunId env st).2.runs newRunId = some "failed" ∧
      (run_full_pipeline newRunId env st).2.lock.locked = false ∧
      (run_full_pipeline newRunId env st).2.lock.currentRunId = none) := by
  have hacq : acquire_pipeline_lock newRunId st.lock
      = (true, { locked := true, currentRunId := some newRunId }) := by
    simp [acquire_pipeline_lock, h_free]
  constructor
  · rintro herr ⟨n, hok⟩
    simp only [run_full_pipeline, hacq, hok, herr, Bool.true_eq_false, if_true, if_false]
    simp [runStatusOf_update_create, release_pipeline_lock]
  · intro hfail
    cases hph : pipeline_phases env with
    | ok n => exact absurd hph (hfail n)
    | error e =>
      simp only [run_full_pipeline, hacq, hph, Bool.true_eq_false, if_false]
      simp [runStatusOf_update_create, release_pipeline_lock]

/-- C2 witness: a free lock; first a run whose only failure is one
candidate's post scrape (terminal status "partial", lock free), then a run
whose VADER phase raises (terminal status "failed", lock free). -/
theorem pipeline_terminal_status_spec_witness :
    (runStatusOf
        (run_full_pipeline 1
          ⟨[("alice", Except.error ()), ("bob", Except.ok 2)],
            Except.ok 3, Except.ok 4, Except.ok 0, Except.ok 2, 10⟩
          ⟨[], initialLockState⟩).2.runs 1 = some "partial" ∧
      (run_full_pipeline 1
          ⟨[("alice", Except.error ()), ("bob", Except.ok 2)],
            Except.ok 3, Except.ok 4, Except.ok 0, Except.ok 2, 10⟩
          ⟨[], initialLockState⟩).2.lock.locked = false) ∧
    (runStatusOf
        (run_full_pipeline 2
          ⟨[("alice", Except.ok 2)],
            Except.ok 3, Except.error (), Except.ok 0, Except.ok 2, 10⟩
          ⟨[], initialLockState⟩).2.runs 2 = some "failed" ∧
      (run_full_pipeline 2
          ⟨[("alice", Except.ok 2)],
            Except.ok 3, Except.error (), Except.ok 0, Except.ok 2, 10⟩
          ⟨[], initialLockState⟩).2.lock.locked = false) := by
  have h1 := (pipeline_terminal_status_spec 1
    ⟨[("alice", Except.error ()), ("bob", Except.ok 2)],
      Except.ok 3, Except.ok 4, Except.ok 0, Except.ok 2, 10⟩
    ⟨[], initialLockState⟩ rfl).1 rfl ⟨3, rfl⟩
  have h2 := (pipeline_terminal_status_spec 2
    ⟨[("alice", Except.ok 2)],
      Except.ok 3, Except.error (), Except.ok 0, Except.ok 2, 10⟩
    ⟨[], initialLockState⟩ rfl).2 (fun n h => by exact Except.noConfusion h)
  exact ⟨⟨h1.1, h1.2.1⟩, ⟨h2.1, h2.2.1⟩⟩

/-- C10: when the lock is already held, `run_full_pipeline` returns the
skip result without ever calling `release_pipeline_lock`: the lock state
— and so `get_current_run_id` — is identical before and after the call,
the in-flight run keeping ownership; the only persisted change is the
call's own pre-created run record, marked "failed" with duration 0 (and
`completed_at` set), every pre-existing run row being left untouched. -/
theorem pipeline_skip_frame_spec (newRunId : ℕ) (env : PipelineEnv)
    (st : PipelineState) (h_held : st.lock.locked = true)
    (h_fresh : ∀ r ∈ st.runs, r.id ≠ newRunId) :
    (run_full_pipeline newRunId env st).1 = PipelineOutcome.skipped ∧
    (run_full_pipeline newRunId env st).2.lock = st.lock ∧
    get_current_run_id (run_full_pipeline newRunId env st).2.lock
      = get_current_run_id st.lock ∧
    (run_full_pipeline newRunId env st).2.runs
      = { id := newRunId, status := "failed", duration_seconds := some 0,
          completed := true } :: st.runs := by
  have hacq : acquire_pipeline_lock newRunId st.lock = (false, st.lock) := by
    simp [acquire_pipeline_lock, h_held]
  have hruns : _update_run_status (_create_scraping_run newRunId st.runs) newRunId
      "failed" (some 0)
      = { id := newRunId, status := "failed", duration_seconds := some 0,
          completed := true } :: st.runs := by
    unfold _create_scraping_run _update_run_status
    simp only [List.map_cons, if_pos rfl]
    rw [show (List.map _ st.runs) = st.runs from update_run_status_not_mem st.runs
      newRunId "failed" (some 0) h_fresh]
    simp
  simp only [run_full_pipeline, hacq, if_true]
  simp [hruns, get_current_run_id]

/-- C10 witness: a held lock, a fresh run id and a pre-existing run row. -/
theorem pipeline_skip_frame_spec_witness :
    (run_full_pipeline 9
        ⟨[("alice", Except.ok 2)], Except.ok 3, Except.ok 4, Except.ok 0, Except.ok 2, 10⟩
        ⟨[⟨4, "running", none, false⟩], ⟨true, some 4⟩⟩).1 = PipelineOutcome.skipped ∧
    (run_full_pipeline 9
        ⟨[("alice", Except.ok 2)], Except.ok 3, Except.ok 4, Except.ok 0, Except.ok 2, 10⟩
        ⟨[⟨4, "running", none, false⟩], ⟨true, some 4⟩⟩).2.lock
      = ⟨true, some 4⟩ ∧
    (run_full_pipeline 9
        ⟨[("alice", Except.ok 2)], Except.ok 3, Except.ok 4, Except.ok 0, Except.ok 2, 10⟩
        ⟨[⟨4, "running", none, false⟩], ⟨true, some 4⟩⟩).2.runs
      = [⟨9, "failed", some 0, true⟩, ⟨4, "running", none, false⟩] := by
  have h := pipeline_skip_frame_spec 9
    ⟨[("alice", Except.ok 2)], Except.ok 3, Except.ok 4, Except.ok 0, Except.ok 2, 10⟩
    ⟨[⟨4, "running", none, false⟩], ⟨true, some 4⟩⟩ rfl
    (by intro r hr; simp at hr; rw [hr]; decide)
  exact ⟨h.1, h.2.1, h.2.2.2⟩

/-! ## Manual trigger endpoint (src/app/routers/scraping.py, lines 143-172) -/

/-- The HTTP response of `POST /run`: the status code, the
`X-Current-Run-Id` header of the 409 conflict, and whether a background
pipeline thread was started. -/
structure TriggerResult where
  status_code : ℕ
  x_current_run_id : Option ℕ
  started : Bool
deriving DecidableEq, Repr

/-- `trigger_full_pipeline()` (routers/scraping.py lines 143-172): if
`is_pipeline_running()`, raise the 409 `HTTPException` carrying
`get_current_run_id()` before doing anything else; otherwise start
`run_full_pipeline` on a background thread and return 202.  The handler
itself never writes the `scraping_runs` table — the run record of an
accepted trigger is created later by `run_full_pipeline` itself — so the
table is carried through unchanged. -/
def trigger_full_pipeline (lock : LockState) (runs : List RunRecord) :
    TriggerResult × List RunRecord :=
  if is_pipeline_running lock then
    ({ status_code := 409, x_current_run_id := get_current_run_id lock,
       started := false }, runs)
  else
    ({ status_code := 202, x_current_run_id := none, started := true }, runs)

/-- Rows currently persisted in status "running". -/
def runningRunCount (runs : List RunRecord) : ℕ :=
  (runs.filter fun r => r.status = "running").length

/-- C9: while the lock is held by run A, a manual trigger is rejected with
a 409 conflict carrying A's run id, no background pipeline is started, and
the `scraping_runs` table is untouched — in particular no new run in
status "running" is persisted for the rejected attempt. -/
theorem manual_trigger_conflict_spec (lock : LockState) (runs : List RunRecord)
    (a : ℕ) (h : get_current_run_id lock = some a) :
    (trigger_full_pipeline lock runs).1.status_code = 409 ∧
    (trigger_full_pipeline lock runs).1.x_current_run_id = some a ∧
    (trigger_full_pipeline lock runs).1.started = false ∧
    (trigger_full_pipeline lock runs).2 = runs ∧
    runningRunCount (trigger_full_pipeline lock runs).2 = runningRunCount runs := by
  have hrun : is_pipeline_running lock = true := by
    simp [is_pipeline_running, get_current_run_id] at h ⊢
    rw [h]
    rfl
  simp only [trigger_full_pipeline, hrun, if_true]
  simp [h]

/-- C9 witness: lock held by run 4; the trigger is rejected with 409 and
run 4's id, and the table (one running row) is unchanged. -/
theorem manual_trigger_conflict_spec_witness :
    (trigger_full_pipeline ⟨true, some 4⟩ [⟨4, "running", none, false⟩]).1.status_code = 409 ∧
    (trigger_full_pipeline ⟨true, some 4⟩ [⟨4, "running", none, false⟩]).1.x_current_run_id
      = some 4 ∧
    (trigger_full_pipeline ⟨true, some 4⟩ [⟨4, "running", none, false⟩]).2
      = [⟨4, "running", none, false⟩] := by
  have h := manual_trigger_conflict_spec ⟨true, some 4⟩ [⟨4, "running", none, false⟩] 4 rfl
  exact ⟨h.1, h.2.1, h.2.2.2.1⟩

end InstagramCampaign
